import Mathlib

/-!
Verification of the WifiSet ESP32 provisioning library.

Shallow embedding of the protocol codec (`MessageBuilder`, `ProtocolHandler`),
the session layer (`WiFiSetESP32`) and the BLE list transmission
(`WiFiSetBLEService::sendWiFiNetworkList`), with theorems settling the
specification claims about them.

Byte buffers are modelled as `List Nat`; every read or write of a machine
byte (`uint8_t`) goes through `% 256`, mirroring the C++ types.
-/

namespace WiFiSet

/-- Message type bytes, from `MessageBuilder.h`. -/
def WIFI_LIST_START : Nat := 0x01

def WIFI_NETWORK_ENTRY : Nat := 0x02

def WIFI_LIST_END : Nat := 0x03

def CREDENTIAL_WRITE : Nat := 0x10

def CREDENTIAL_WRITE_ACK : Nat := 0x11

def STATUS_REQUEST : Nat := 0x20

def STATUS_RESPONSE : Nat := 0x21

def ERROR_TYPE : Nat := 0xFF

/-- Error code bytes, from `MessageBuilder.h` (`enum class ErrorCode`). -/
def STORAGE_ERROR : Nat := 0x04

def CONNECTION_TIMEOUT : Nat := 0x05

/-- Read byte `i` of a buffer; a `uint8_t` load, hence the `% 256`. -/
def byteAt (data : List Nat) (i : Nat) : Nat :=
  data.getD i 0 % 256

/-- `MessageHeader` from `ProtocolHandler.h`: type, sequence, payload length
and a validity marker.  The default value (declared type `ERROR`, zeroes,
`isValid = false`) is what the C++ default constructor produces. -/
structure MessageHeader where
  type : Nat
  sequence : Nat
  payloadLength : Nat
  isValid : Bool
  deriving DecidableEq, Repr

/-- `ProtocolHandler::parseHeader`: requires at least 4 bytes, then reads
`type = data[0]`, `sequence = data[1]` and the little-endian payload length
`data[2] | (data[3] << 8)`.  Both operands of the bitwise or are bytes in
disjoint bit ranges, so it equals `data[2] + 256 * data[3]`. -/
def parseHeader (data : List Nat) : MessageHeader :=
  if data.length < 4 then ⟨ERROR_TYPE, 0, 0, false⟩
  else ⟨byteAt data 0, byteAt data 1, byteAt data 2 + 256 * byteAt data 3, true⟩

/-- `ProtocolHandler::validateMessage`: at least 4 bytes, a valid header, and
the total length must equal `4 + header.payloadLength`. -/
def validateMessage (data : List Nat) : Bool :=
  if data.length < 4 then false
  else if (parseHeader data).isValid = false then false
  else data.length == 4 + (parseHeader data).payloadLength

/-- `ProtocolHandler::extractString`: reads one length byte, fails when the
declared length exceeds `maxLength` or when fewer than `1 + length` bytes
are `available`; on success returns the string bytes and the number of
bytes consumed.  `available` is the caller-supplied remaining-byte budget. -/
def extractString (data : List Nat) (available : Nat) (maxLength : Nat) :
    Option (List Nat × Nat) :=
  if available < 1 then none
  else
    let stringLength := byteAt data 0
    if stringLength > maxLength then none
    else if available < 1 + stringLength then none
    else some (((data.drop 1).take stringLength).map (fun b => b % 256),
               1 + stringLength)

/-- `CredentialData` from `ProtocolHandler.h`; the default constructor gives
empty strings and `isValid = false`. -/
structure CredentialData where
  ssid : List Nat
  password : List Nat
  isValid : Bool
  deriving DecidableEq, Repr

/-- `ProtocolHandler::parseCredentialWrite`: validate the message, check the
type byte, extract the SSID (max 32) from the payload, reject an empty SSID,
extract the password (max 63) from the rest of the declared payload budget;
any failure returns the default (invalid) `CredentialData`. -/
def parseCredentialWrite (data : List Nat) : CredentialData :=
  if validateMessage data = false then ⟨[], [], false⟩
  else if (parseHeader data).type ≠ CREDENTIAL_WRITE then ⟨[], [], false⟩
  else
    match extractString (data.drop 4) (parseHeader data).payloadLength 32 with
    | none => ⟨[], [], false⟩
    | some (ssid, bytesRead) =>
      if ssid.length = 0 then ⟨[], [], false⟩
      else
        match extractString ((data.drop 4).drop bytesRead)
            ((parseHeader data).payloadLength - bytesRead) 63 with
        | none => ⟨[], [], false⟩
        | some (password, _) => ⟨ssid, password, true⟩

/-- `MessageBuilder` state: the single outbound sequence counter
(`uint8_t sequenceCounter`). -/
structure MessageBuilder where
  sequenceCounter : Nat
  deriving DecidableEq, Repr

/-- `MessageBuilder::buildHeader`: `[type, sequence, length_low, length_high]`. -/
def MessageBuilder.buildHeader (mb : MessageBuilder) (type : Nat)
    (payloadLength : Nat) : List Nat :=
  [type % 256, mb.sequenceCounter % 256, payloadLength % 256,
   payloadLength / 256 % 256]

/-- `MessageBuilder::incrementSequence`: `uint8_t` increment, wraps mod 256. -/
def MessageBuilder.incrementSequence (mb : MessageBuilder) : MessageBuilder :=
  ⟨(mb.sequenceCounter + 1) % 256⟩

/-- `MessageBuilder::buildWiFiListStart`: empty payload. -/
def MessageBuilder.buildWiFiListStart (mb : MessageBuilder) :
    List Nat × MessageBuilder :=
  (mb.buildHeader WIFI_LIST_START 0, mb.incrementSequence)

/-- `WiFiNetworkInfo` from `MessageBuilder.h`. -/
structure WiFiNetworkInfo where
  ssid : List Nat
  rssi : Int
  securityType : Nat
  channel : Nat
  deriving DecidableEq, Repr

/-- `MessageBuilder::buildWiFiNetworkEntry`: `ssidLength` is a `uint8_t`
copy of `ssid.length()` (hence `% 256`) clamped to 32; payload is
`ssid_len(1) + ssid + rssi(1) + security(1) + channel(1)`. -/
def MessageBuilder.buildWiFiNetworkEntry (mb : MessageBuilder)
    (network : WiFiNetworkInfo) : List Nat × MessageBuilder :=
  let ssidLength := if network.ssid.length % 256 > 32 then 32
                    else network.ssid.length % 256
  let payloadLength := 1 + ssidLength + 1 + 1 + 1
  (mb.buildHeader WIFI_NETWORK_ENTRY payloadLength ++
     ssidLength :: (network.ssid.take ssidLength).map (fun b => b % 256) ++
     [(network.rssi % 256).toNat, network.securityType % 256,
      network.channel % 256],
   mb.incrementSequence)

/-- `MessageBuilder::buildWiFiListEnd`: payload is the one count byte. -/
def MessageBuilder.buildWiFiListEnd (mb : MessageBuilder)
    (networkCount : Nat) : List Nat × MessageBuilder :=
  (mb.buildHeader WIFI_LIST_END 1 ++ [networkCount % 256],
   mb.incrementSequence)

/-- `MessageBuilder::buildCredentialWriteAck`: payload is the status byte. -/
def MessageBuilder.buildCredentialWriteAck (mb : MessageBuilder)
    (statusCode : Nat) : List Nat × MessageBuilder :=
  (mb.buildHeader CREDENTIAL_WRITE_ACK 1 ++ [statusCode % 256],
   mb.incrementSequence)

/-- `ConnectionState` from `MessageBuilder.h`. -/
inductive ConnState where
  | notConfigured
  | configuredNotConnected
  | connecting
  | connected
  | connectionFailed
  deriving DecidableEq, Repr

/-- Byte value of a `ConnectionState` (`enum class ... : uint8_t`). -/
def ConnState.toByte : ConnState → Nat
  | .notConfigured => 0x00
  | .configuredNotConnected => 0x01
  | .connecting => 0x02
  | .connected => 0x03
  | .connectionFailed => 0x04

/-- `MessageBuilder::buildStatusResponse`: payload
`state(1) + rssi(1) + ip(4) + ssid_len(1) + ssid`, with the `uint8_t`
SSID length clamped to 32. -/
def MessageBuilder.buildStatusResponse (mb : MessageBuilder)
    (state : ConnState) (rssi : Int) (ip : Nat × Nat × Nat × Nat)
    (ssid : List Nat) : List Nat × MessageBuilder :=
  let ssidLength := if ssid.length % 256 > 32 then 32 else ssid.length % 256
  let payloadLength := 1 + 1 + 4 + 1 + ssidLength
  (mb.buildHeader STATUS_RESPONSE payloadLength ++
     state.toByte :: (rssi % 256).toNat :: ip.1 % 256 :: ip.2.1 % 256 ::
     ip.2.2.1 % 256 :: ip.2.2.2 % 256 ::
     ssidLength :: (ssid.take ssidLength).map (fun b => b % 256),
   mb.incrementSequence)

/-- `MessageBuilder::buildError`: `messageLength` is a `uint8_t` copy of
`errorMessage.length()`, so the assignment itself truncates mod 256 and the
subsequent `> 255` clamp in the source can never fire (kept here verbatim);
payload is `error_code(1) + message_len(1) + message`. -/
def MessageBuilder.buildError (mb : MessageBuilder) (errorCode : Nat)
    (errorMessage : List Nat) : List Nat × MessageBuilder :=
  let messageLength0 := errorMessage.length % 256
  let messageLength := if messageLength0 > 255 then 255 else messageLength0
  let payloadLength := 1 + 1 + messageLength
  (mb.buildHeader ERROR_TYPE payloadLength ++
     errorCode % 256 :: messageLength ::
     (errorMessage.take messageLength).map (fun b => b % 256),
   mb.incrementSequence)

end WiFiSet

namespace WiFiSet

/-- Encoder for a `CredentialWrite` frame following the payload-layout table
of the specification (4-byte header `[type, sequence, len_low, len_high]`
with the little-endian payload length, then `ssid_len(1) + ssid` followed by
`password_len(1) + password`).  The repository contains only the decoder for
this message type; the encoder lives on the peer side. -/
def encodeCredentialWrite (seq : Nat) (ssid password : List Nat) : List Nat :=
  let payload := ssid.length :: ssid ++ password.length :: password
  CREDENTIAL_WRITE :: seq % 256 :: payload.length % 256 ::
    payload.length / 256 % 256 :: payload

/-- The little-endian payload length declared in header bytes 2 and 3. -/
def declaredPayloadLength (data : List Nat) : Nat :=
  byteAt data 2 + 256 * byteAt data 3

/-- One outbound build request; `runBuild` dispatches it to the
corresponding `MessageBuilder` method, so statements can quantify over an
arbitrary mix of message types. -/
inductive BuildRequest where
  | listStart
  | networkEntry (network : WiFiNetworkInfo)
  | listEnd (networkCount : Nat)
  | credentialAck (statusCode : Nat)
  | statusResponse (state : ConnState) (rssi : Int) (ip : Nat × Nat × Nat × Nat)
      (ssid : List Nat)
  | errorMsg (errorCode : Nat) (message : List Nat)
  deriving DecidableEq, Repr

/-- Dispatch one build call to the matching `MessageBuilder` method. -/
def runBuild : BuildRequest → MessageBuilder → List Nat × MessageBuilder
  | .listStart, mb => mb.buildWiFiListStart
  | .networkEntry network, mb => mb.buildWiFiNetworkEntry network
  | .listEnd networkCount, mb => mb.buildWiFiListEnd networkCount
  | .credentialAck statusCode, mb => mb.buildCredentialWriteAck statusCode
  | .statusResponse state rssi ip ssid, mb => mb.buildStatusResponse state rssi ip ssid
  | .errorMsg errorCode message, mb => mb.buildError errorCode message

/-- Run a list of build calls in order, collecting the emitted frames. -/
def runBuilds : List BuildRequest → MessageBuilder → List (List Nat) × MessageBuilder
  | [], mb => ([], mb)
  | r :: rs, mb =>
    let fm := runBuild r mb
    let rest := runBuilds rs fm.2
    (fm.1 :: rest.1, rest.2)

/-- `WiFiConnectResult` from `WiFiManager.h`. -/
inductive WiFiConnectResult where
  | success
  | failedTimeout
  | failedWrongPassword
  | failedNotFound
  | failedUnknown
  deriving DecidableEq, Repr

/-- Observable side effects of the session layer (`WiFiSetESP32`), in the
order they are performed.  `statusResponse` is a `sendCurrentStatus` call
(the status frame built from the `wifiManager` snapshot and transmitted by
`bleService.sendStatusResponse` when a peer is connected); `errorFrame` is
a `bleService.sendError` call carrying the given error code;
`connectAttempt` is a `wifiManager.connect` call; the `...Cb` events are
invocations of the registered user callbacks (all callbacks are modelled
as registered, i.e. the `std::function` guards hold). -/
inductive Event where
  | statusResponse
  | errorFrame (code : Nat)
  | connectAttempt (ssid password : List Nat)
  | connStatusCb (state : ConnState)
  | wifiConnectedCb
  | wifiConnFailedCb
  | bleClientConnectedCb
  | bleClientDisconnectedCb
  | credentialsReceivedCb (ssid password : List Nat)
  | scanNetworks
  | sendNetworkList
  deriving DecidableEq, Repr

/-- The `WiFiSetESP32` fields the claims are about: the recorded connection
state and the two deferred-bridge flags. -/
structure ESPState where
  lastConnectionState : ConnState
  pendingClientConnect : Bool
  pendingClientDisconnect : Bool
  deriving DecidableEq, Repr

/-- `WiFiSetESP32::onClientConnected`: only sets the pending flag. -/
def onClientConnected (st : ESPState) : ESPState :=
  { st with pendingClientConnect := true }

/-- `WiFiSetESP32::onClientDisconnected`: only sets the pending flag. -/
def onClientDisconnected (st : ESPState) : ESPState :=
  { st with pendingClientDisconnect := true }

/-- `WiFiSetESP32::handleWiFiConnection`, with the collaborator results as
parameters: `saveOk` is the `nvsManager.saveCredentials` outcome and
`result` the `wifiManager.connect` outcome.  On save failure it sends a
`STORAGE_ERROR` frame and returns at once; otherwise it records
`CONNECTING`, pushes a status, attempts the connection, records the final
state, pushes a status again and fires the matching user callback (plus a
`CONNECTION_TIMEOUT` error frame on failure). -/
def handleWiFiConnection (saveOk : Bool) (result : WiFiConnectResult)
    (ssid password : List Nat) (st : ESPState) : ESPState × List Event :=
  if saveOk = false then (st, [.errorFrame STORAGE_ERROR])
  else
    let st1 := { st with lastConnectionState := ConnState.connecting }
    if result = .success then
      ({ st1 with lastConnectionState := ConnState.connected },
       [.statusResponse, .connectAttempt ssid password, .statusResponse,
        .wifiConnectedCb])
    else
      ({ st1 with lastConnectionState := ConnState.connectionFailed },
       [.statusResponse, .connectAttempt ssid password, .statusResponse,
        .wifiConnFailedCb, .errorFrame CONNECTION_TIMEOUT])

/-- `WiFiSetESP32::onCredentialsReceived`: fires the user callback, then
handles the connection inline. -/
def onCredentialsReceived (saveOk : Bool) (result : WiFiConnectResult)
    (ssid password : List Nat) (st : ESPState) : ESPState × List Event :=
  let hw := handleWiFiConnection saveOk result ssid password st
  (hw.1, .credentialsReceivedCb ssid password :: hw.2)

/-- `WiFiSetESP32::monitorConnection`, with the collaborator reads as
parameters: `current` is `wifiManager.getConnectionState()`,
`clientConnected` is `bleService.isClientConnected()` and `timerExpired`
is `millis() - lastStatusUpdate > 10000`.  When the state changed or the
timer expired it pushes a status (if a peer is connected); only when the
state changed does it record the new state and fire the status-change
callback plus the connected/failed specific callback. -/
def monitorConnection (current : ConnState) (clientConnected timerExpired : Bool)
    (st : ESPState) : ESPState × List Event :=
  if current ≠ st.lastConnectionState ∨ timerExpired = true then
    if current ≠ st.lastConnectionState then
      ({ st with lastConnectionState := current },
       (if clientConnected = true then [Event.statusResponse] else []) ++
         [.connStatusCb current] ++
         (if current = ConnState.connected then [Event.wifiConnectedCb]
          else if current = ConnState.connectionFailed then [Event.wifiConnFailedCb]
          else []))
    else (st, if clientConnected = true then [Event.statusResponse] else [])
  else (st, [])

/-- The deferred connect work performed by `WiFiSetESP32::loop` when
`pendingClientConnect` is set: user callback, WiFi scan, network-list
transmission (skipped when no peer is connected, as in
`performWiFiScanAndSend`), then a status push. -/
def connectDrain (clientConnected : Bool) : List Event :=
  [.bleClientConnectedCb, .scanNetworks] ++
    (if clientConnected = true then [Event.sendNetworkList] else []) ++
    [Event.statusResponse]

/-- The pending-connect drain step of `WiFiSetESP32::loop`: if the flag is
set, clear it and perform the deferred connect work. -/
def drainConnect (clientConnected : Bool) (st : ESPState) :
    ESPState × List Event :=
  if st.pendingClientConnect = true then
    ({ st with pendingClientConnect := false }, connectDrain clientConnected)
  else (st, [])

/-- The pending-disconnect drain step of `WiFiSetESP32::loop`: if the flag
is set, clear it and fire the user disconnect callback. -/
def drainDisconnect (st : ESPState) : ESPState × List Event :=
  if st.pendingClientDisconnect = true then
    ({ st with pendingClientDisconnect := false }, [Event.bleClientDisconnectedCb])
  else (st, [])

/-- `WiFiSetESP32::loop`: drain the pending-connect flag, then the
pending-disconnect flag, then poll via `monitorConnection`. -/
def loop (current : ConnState) (clientConnected timerExpired : Bool)
    (st : ESPState) : ESPState × List Event :=
  let a := drainConnect clientConnected st
  let b := drainDisconnect a.1
  let c := monitorConnection current clientConnected timerExpired b.1
  (c.1, a.2 ++ b.2 ++ c.2)

/-- Whether an event is a status-change callback invocation. -/
def isConnStatusCb : Event → Bool
  | .connStatusCb _ => true
  | _ => false

/-- Number of status-change callback invocations in an event list. -/
def countConnStatusCb (evs : List Event) : Nat :=
  (evs.filter isConnStatusCb).length

/-- Whether an event is a `wifiManager.connect` call. -/
def isConnectAttempt : Event → Bool
  | .connectAttempt _ _ => true
  | _ => false

/-- The loop body of `WiFiSetBLEService::sendWiFiNetworkList`.  `conn`
gives the value of the cross-context `clientConnected` flag at successive
observation points (one per check performed, counted by `k`): each
iteration checks the flag at the loop head (an early return when false,
flagged in the fourth component) and again inside `sendData` before the
entry frame is actually transmitted. -/
def sendEntriesLoop (conn : Nat → Bool) (mb : MessageBuilder)
    (networks : List WiFiNetworkInfo) (k : Nat) :
    List (List Nat) × MessageBuilder × Nat × Bool :=
  match networks with
  | [] => ([], mb, k, false)
  | network :: rest =>
    if conn k = false then ([], mb, k + 1, true)
    else
      let fm := mb.buildWiFiNetworkEntry network
      let sent := if conn (k + 1) = true then [fm.1] else []
      let r := sendEntriesLoop conn fm.2 rest (k + 2)
      (sent ++ r.1, r.2.1, r.2.2.1, r.2.2.2)

/-- `WiFiSetBLEService::sendWiFiNetworkList`: guard on the flag, send the
`ListStart` frame (`sendData` re-checks the flag), send the entries, and —
only when the loop was not aborted by a disconnect — send the `ListEnd`
frame carrying the count clamped to 255.  Returns the frames actually
transmitted and the final builder state. -/
def sendWiFiNetworkList (conn : Nat → Bool) (mb : MessageBuilder)
    (networks : List WiFiNetworkInfo) : List (List Nat) × MessageBuilder :=
  if conn 0 = false then ([], mb)
  else
    let sm := mb.buildWiFiListStart
    let sentStart := if conn 1 = true then [sm.1] else []
    let r := sendEntriesLoop conn sm.2 networks 2
    if r.2.2.2 = true then (sentStart ++ r.1, r.2.1)
    else
      let count := if networks.length > 255 then 255 else networks.length
      let em := r.2.1.buildWiFiListEnd count
      let sentEnd := if conn r.2.2.1 = true then [em.1] else []
      (sentStart ++ r.1 ++ sentEnd, em.2)

lemma map_mod_of_lt (l : List Nat) (h : ∀ b ∈ l, b < 256) :
    l.map (fun b => b % 256) = l := by
  induction l with
  | nil => rfl
  | cons a t ih =>
    simp only [List.map_cons, List.cons.injEq]
    exact ⟨Nat.mod_eq_of_lt (h a (List.mem_cons_self a t)),
           ih fun b hb => h b (List.mem_cons_of_mem a hb)⟩

lemma parseHeader_cons (t s l1 l2 : Nat) (rest : List Nat) :
    parseHeader (t :: s :: l1 :: l2 :: rest) =
      ⟨t % 256, s % 256, l1 % 256 + 256 * (l2 % 256), true⟩ := by
  have hlen : ¬ (t :: s :: l1 :: l2 :: rest).length < 4 := by
    simp [List.length_cons]
  unfold parseHeader byteAt
  simp [hlen]

lemma validateMessage_header_true (t s l1 l2 : Nat) (rest : List Nat)
    (h : rest.length = l1 % 256 + 256 * (l2 % 256)) :
    validateMessage (t :: s :: l1 :: l2 :: rest) = true := by
  have hlen : ¬ (t :: s :: l1 :: l2 :: rest).length < 4 := by
    simp [List.length_cons]
  unfold validateMessage
  rw [parseHeader_cons]
  simp [hlen, List.length_cons, h]
  omega

lemma extractString_exact (len maxLength available : Nat)
    (content rest : List Nat) (hlen : content.length = len)
    (hmax : len ≤ maxLength) (hlt : len < 256) (havail : 1 + len ≤ available) :
    extractString (len :: (content ++ rest)) available maxLength =
      some (content.map (fun b => b % 256), 1 + len) := by
  unfold extractString byteAt
  rw [if_neg (by omega)]
  simp only [List.getD_cons_zero, Nat.mod_eq_of_lt hlt]
  rw [if_neg (by omega), if_neg (by omega)]
  simp [List.take_left' hlen]

/-- C5: `validateMessage` accepts exactly the buffers of length at least 4
whose total length equals 4 plus the little-endian payload length declared
in header bytes 2 and 3; in particular a 3-byte buffer fails, as does a
buffer declaring payload length 10 with only 9 bytes after the header. -/
theorem validateMessage_iff :
    (∀ data : List Nat, validateMessage data = true ↔
      4 ≤ data.length ∧ data.length = 4 + declaredPayloadLength data) ∧
    validateMessage [0, 0, 0] = false ∧
    validateMessage (16 :: 0 :: 10 :: 0 :: List.replicate 9 0) = false := by
  refine ⟨fun data => ?_, by decide, by decide⟩
  unfold validateMessage parseHeader declaredPayloadLength
  by_cases h : data.length < 4
  · simp [h]
    try omega
  · simp [h]
    try omega

set_option maxRecDepth 10000 in
/-- C2 (code bug): `buildError` declares `messageLength` as `uint8_t`, so a
256-byte message wraps to a declared length of 0 and the emitted frame
carries an empty message field instead of the documented 255-byte
truncation; the dead `> 255` clamp in the source shows the intent.  The
frame for error code 1 and a 256-byte message is exactly
`[type 0xFF, seq 0, payload_len 2, 0, code 1, message_len 0]`. -/
theorem buildError_wraps_at_256 :
    (MessageBuilder.buildError ⟨0⟩ 1 (List.replicate 256 97)).1 =
      [255, 0, 2, 0, 1, 0] ∧
    ((MessageBuilder.buildError ⟨0⟩ 1 (List.replicate 256 97)).1.getD 5 0 ≠ 255) := by
  constructor
  · simp [MessageBuilder.buildError, MessageBuilder.buildHeader, ERROR_TYPE]
  · simp [MessageBuilder.buildError, MessageBuilder.buildHeader, ERROR_TYPE]

/-- C3: `parseCredentialWrite` yields `isValid = true` exactly when the
buffer validates, the type byte is `CREDENTIAL_WRITE`, SSID extraction
(max declared length 32) succeeds with a non-empty SSID, and password
extraction (max declared length 63) succeeds on the remaining declared
payload budget; every failure path returns `isValid = false`. -/
theorem parseCredentialWrite_isValid_iff (data : List Nat) :
    (parseCredentialWrite data).isValid = true ↔
      validateMessage data = true ∧
      (parseHeader data).type = CREDENTIAL_WRITE ∧
      ∃ s n, extractString (data.drop 4) (parseHeader data).payloadLength 32 =
          some (s, n) ∧
        s.length ≠ 0 ∧
        ∃ p m, extractString ((data.drop 4).drop n)
            ((parseHeader data).payloadLength - n) 63 = some (p, m) := by
  unfold parseCredentialWrite
  split
  next hv =>
    refine iff_of_false (by simp) ?_
    rintro ⟨hval, -⟩
    rw [hval] at hv
    exact Bool.noConfusion hv
  next hv =>
    have hvt : validateMessage data = true := by simpa using hv
    split
    next ht =>
      refine iff_of_false (by simp) ?_
      rintro ⟨-, htype, -⟩
      exact ht htype
    next ht =>
      have htt : (parseHeader data).type = CREDENTIAL_WRITE := not_not.mp ht
      split
      next heq =>
        refine iff_of_false (by simp) ?_
        rintro ⟨-, -, s, n, hs, -⟩
        rw [heq] at hs
        exact Option.noConfusion hs
      next s n heq =>
        split
        next hempty =>
          refine iff_of_false (by simp) ?_
          rintro ⟨-, -, s', n', hs, hne, -⟩
          rw [heq] at hs
          obtain ⟨rfl, rfl⟩ : s = s' ∧ n = n' := by simpa using hs
          exact hne hempty
        next hempty =>
          split
          next heq2 =>
            refine iff_of_false (by simp) ?_
            rintro ⟨-, -, s', n', hs, -, p, m, hp⟩
            rw [heq] at hs
            obtain ⟨rfl, rfl⟩ : s = s' ∧ n = n' := by simpa using hs
            rw [heq2] at hp
            exact Option.noConfusion hp
          next p m heq2 =>
            refine iff_of_true (by simp) ?_
            exact ⟨hvt, htt, s, n, heq, hempty, p, m, heq2⟩

/-- C4: encoding a `CredentialWrite` frame per the specified layout for any
SSID of 1 to 32 bytes and password of 0 to 63 bytes and decoding it with
`parseCredentialWrite` returns exactly the same SSID and password with
`isValid = true`. -/
theorem credentialWrite_roundTrip (seq : Nat) (ssid password : List Nat)
    (h1 : 1 ≤ ssid.length) (h2 : ssid.length ≤ 32) (h3 : password.length ≤ 63)
    (h4 : ∀ b ∈ ssid, b < 256) (h5 : ∀ b ∈ password, b < 256) :
    parseCredentialWrite (encodeCredentialWrite seq ssid password) =
      ⟨ssid, password, true⟩ := by
  have hpl : (ssid.length :: ssid ++ password.length :: password).length =
      ssid.length + password.length + 2 := by
    simp [List.length_cons, List.length_append]
    omega
  have hdata : encodeCredentialWrite seq ssid password =
      CREDENTIAL_WRITE :: (seq % 256) ::
        (ssid.length + password.length + 2) :: 0 ::
        (ssid.length :: (ssid ++ password.length :: password)) := by
    simp only [encodeCredentialWrite]
    rw [hpl]
    rw [Nat.mod_eq_of_lt (a := ssid.length + password.length + 2) (by omega)]
    have hz : (ssid.length + password.length + 2) / 256 % 256 = 0 := by omega
    rw [hz]
    rfl
  have hhead : parseHeader (encodeCredentialWrite seq ssid password) =
      ⟨CREDENTIAL_WRITE, seq % 256, ssid.length + password.length + 2, true⟩ := by
    rw [hdata, parseHeader_cons]
    have e1 : CREDENTIAL_WRITE % 256 = CREDENTIAL_WRITE := by decide
    have e2 : seq % 256 % 256 = seq % 256 := by omega
    have e3 : (ssid.length + password.length + 2) % 256 + 256 * (0 % 256) =
        ssid.length + password.length + 2 := by omega
    rw [e1, e2, e3]
  have hval : validateMessage (encodeCredentialWrite seq ssid password) = true := by
    rw [hdata]
    apply validateMessage_header_true
    simp [List.length_cons, List.length_append]
    omega
  have hdrop : (encodeCredentialWrite seq ssid password).drop 4 =
      ssid.length :: (ssid ++ password.length :: password) := by
    rw [hdata]
    rfl
  have hex1 : extractString ((encodeCredentialWrite seq ssid password).drop 4)
      (ssid.length + password.length + 2) 32 = some (ssid, 1 + ssid.length) := by
    rw [hdrop]
    rw [extractString_exact ssid.length 32 (ssid.length + password.length + 2)
      ssid (password.length :: password) rfl h2 (by omega) (by omega)]
    rw [map_mod_of_lt ssid h4]
  have hdrop2 : ((encodeCredentialWrite seq ssid password).drop 4).drop
      (1 + ssid.length) = password.length :: password := by
    rw [hdrop]
    have : (1 + ssid.length) = ssid.length + 1 := by omega
    rw [this]
    simp only [List.drop_succ_cons]
    exact List.drop_left' rfl
  have hex2 : extractString
      (((encodeCredentialWrite seq ssid password).drop 4).drop (1 + ssid.length))
      ((ssid.length + password.length + 2) - (1 + ssid.length)) 63 =
      some (password, 1 + password.length) := by
    rw [hdrop2]
    have hp : password.length :: password = password.length :: (password ++ []) := by
      simp
    rw [hp]
    rw [extractString_exact password.length 63
      ((ssid.length + password.length + 2) - (1 + ssid.length))
      password [] rfl h3 (by omega) (by omega)]
    rw [map_mod_of_lt password h5]
  unfold parseCredentialWrite
  rw [hval, hhead, hex1]
  simp only []
  rw [if_neg (by simp), if_neg (by simp), if_neg (by omega)]
  rw [hex2]

/-- Witness for C4: the concrete round trip for SSID `home` and password
`pw123` (as byte lists), at sequence number 7. -/
theorem credentialWrite_roundTrip_witness :
    1 ≤ ([104, 111, 109, 101] : List Nat).length ∧
    ([104, 111, 109, 101] : List Nat).length ≤ 32 ∧
    ([112, 119, 49, 50, 51] : List Nat).length ≤ 63 ∧
    (∀ b ∈ ([104, 111, 109, 101] : List Nat), b < 256) ∧
    (∀ b ∈ ([112, 119, 49, 50, 51] : List Nat), b < 256) ∧
    parseCredentialWrite (encodeCredentialWrite 7 [104, 111, 109, 101]
        [112, 119, 49, 50, 51]) =
      ⟨[104, 111, 109, 101], [112, 119, 49, 50, 51], true⟩ :=
  ⟨by decide, by decide, by decide, by decide, by decide,
   credentialWrite_roundTrip 7 _ _ (by decide) (by decide) (by decide)
     (by decide) (by decide)⟩

lemma validateMessage_append_true (mb : MessageBuilder) (t pl : Nat)
    (payload : List Nat) (hlen : payload.length = pl) (hpl : pl < 65536) :
    validateMessage (mb.buildHeader t pl ++ payload) = true := by
  unfold MessageBuilder.buildHeader
  simp only [List.cons_append, List.nil_append]
  apply validateMessage_header_true
  omega

lemma runBuild_seqByte (r : BuildRequest) (mb : MessageBuilder) :
    (runBuild r mb).1.getD 1 0 = mb.sequenceCounter % 256 := by
  cases r <;>
    simp [runBuild, MessageBuilder.buildWiFiListStart,
      MessageBuilder.buildWiFiNetworkEntry, MessageBuilder.buildWiFiListEnd,
      MessageBuilder.buildCredentialWriteAck, MessageBuilder.buildStatusResponse,
      MessageBuilder.buildError, MessageBuilder.buildHeader,
      List.cons_append, List.getD_cons_succ, List.getD_cons_zero]

lemma runBuild_counter (r : BuildRequest) (mb : MessageBuilder) :
    (runBuild r mb).2 = mb.incrementSequence := by
  cases r <;> rfl

lemma runBuilds_counter (rs : List BuildRequest) (mb : MessageBuilder)
    (h : mb.sequenceCounter < 256) :
    (runBuilds rs mb).2.sequenceCounter = (mb.sequenceCounter + rs.length) % 256 := by
  induction rs generalizing mb with
  | nil => simp [runBuilds, Nat.mod_eq_of_lt h]
  | cons r rs ih =>
    have h2 : (mb.incrementSequence).sequenceCounter < 256 := by
      unfold MessageBuilder.incrementSequence
      exact Nat.mod_lt _ (by omega)
    simp only [runBuilds]
    rw [runBuild_counter, ih _ h2]
    unfold MessageBuilder.incrementSequence
    simp only [List.length_cons]
    omega

lemma runBuilds_frameSeq (rs : List BuildRequest) (mb : MessageBuilder)
    (i : Nat) (h : i < rs.length) :
    ((runBuilds rs mb).1.getD i []).getD 1 0 = (mb.sequenceCounter + i) % 256 := by
  induction rs generalizing mb i with
  | nil => simp at h
  | cons r rs ih =>
    cases i with
    | zero =>
      simp only [runBuilds, List.getD_cons_zero]
      rw [runBuild_seqByte]
      simp
    | succ i =>
      simp only [runBuilds, List.getD_cons_succ]
      rw [runBuild_counter, ih _ _ (by simpa using h)]
      unfold MessageBuilder.incrementSequence
      simp only []
      omega

/-- C6: the one shared sequence counter is placed in header byte 1 of every
built frame and post-incremented mod 256 by every build call, of any
message type; over any list of consecutive builds frame `i` carries
sequence byte `s + i mod 256`, and after 256 builds the counter is back at
its start value. -/
theorem sequenceCounter_shared_wrapping :
    (∀ r mb, (runBuild r mb).1.getD 1 0 = mb.sequenceCounter % 256 ∧
      (runBuild r mb).2.sequenceCounter = (mb.sequenceCounter + 1) % 256) ∧
    (∀ rs mb i, i < rs.length →
      ((runBuilds rs mb).1.getD i []).getD 1 0 = (mb.sequenceCounter + i) % 256) ∧
    (∀ rs mb, rs.length = 256 → mb.sequenceCounter < 256 →
      (runBuilds rs mb).2.sequenceCounter = mb.sequenceCounter) := by
  refine ⟨fun r mb => ⟨runBuild_seqByte r mb, ?_⟩,
    fun rs mb i h => runBuilds_frameSeq rs mb i h,
    fun rs mb h256 hlt => ?_⟩
  · rw [runBuild_counter]
    rfl
  · rw [runBuilds_counter rs mb hlt, h256]
    omega

set_option maxRecDepth 10000 in
/-- Witness for C6: 256 consecutive `ListStart` builds starting at counter
0 return the counter to 0, and the second of two consecutive builds
carries sequence byte `(0 + 1) % 256`. -/
theorem sequenceCounter_shared_wrapping_witness :
    (List.replicate 256 BuildRequest.listStart).length = 256 ∧
    (MessageBuilder.mk 0).sequenceCounter < 256 ∧
    (1 : Nat) < (List.replicate 2 BuildRequest.listStart).length ∧
    (runBuilds (List.replicate 256 BuildRequest.listStart) ⟨0⟩).2.sequenceCounter = 0 ∧
    ((runBuilds (List.replicate 2 BuildRequest.listStart) ⟨0⟩).1.getD 1 []).getD 1 0 =
      (0 + 1) % 256 :=
  ⟨by simp, by decide, by simp,
   sequenceCounter_shared_wrapping.2.2 _ _ (by simp) (by decide),
   sequenceCounter_shared_wrapping.2.1 _ _ 1 (by simp)⟩

/-- C10: every frame produced by any `MessageBuilder` build function passes
`validateMessage`: its total length equals 4 plus the payload length
declared in its own header. -/
theorem builtFrames_validate (r : BuildRequest) (mb : MessageBuilder) :
    validateMessage (runBuild r mb).1 = true := by
  cases r with
  | listStart =>
    show validateMessage (mb.buildHeader WIFI_LIST_START 0) = true
    unfold MessageBuilder.buildHeader
    apply validateMessage_header_true
    simp
  | networkEntry network =>
    by_cases hc : network.ssid.length % 256 > 32
    · simp only [runBuild, MessageBuilder.buildWiFiNetworkEntry, if_pos hc]
      apply validateMessage_append_true
      · simp [List.length_append, List.length_map, List.length_take,
          List.length_cons]
        omega
      · omega
    · simp only [runBuild, MessageBuilder.buildWiFiNetworkEntry, if_neg hc]
      apply validateMessage_append_true
      · simp [List.length_append, List.length_map, List.length_take,
          List.length_cons]
        omega
      · omega
  | listEnd networkCount =>
    simp only [runBuild, MessageBuilder.buildWiFiListEnd]
    apply validateMessage_append_true
    · rfl
    · omega
  | credentialAck statusCode =>
    simp only [runBuild, MessageBuilder.buildCredentialWriteAck]
    apply validateMessage_append_true
    · rfl
    · omega
  | statusResponse state rssi ip ssid =>
    by_cases hc : ssid.length % 256 > 32
    · simp only [runBuild, MessageBuilder.buildStatusResponse, if_pos hc]
      apply validateMessage_append_true
      · simp [List.length_map, List.length_take, List.length_cons]
        omega
      · omega
    · simp only [runBuild, MessageBuilder.buildStatusResponse, if_neg hc]
      apply validateMessage_append_true
      · simp [List.length_map, List.length_take, List.length_cons]
        omega
      · omega
  | errorMsg errorCode message =>
    by_cases hc : message.length % 256 > 255
    · simp only [runBuild, MessageBuilder.buildError, if_pos hc]
      apply validateMessage_append_true
      · simp [List.length_map, List.length_take, List.length_cons]
        omega
      · omega
    · simp only [runBuild, MessageBuilder.buildError, if_neg hc]
      apply validateMessage_append_true
      · simp [List.length_map, List.length_take, List.length_cons]
        omega
      · omega

/-- C1 counterexample: in the scenario the claim describes — starting in
`NotConfigured`, a valid `CredentialWrite("home","pw123")` whose connect
collaborator call succeeds, followed by a poll tick — the externally
registered status-change callback fires zero times, not twice: the
credential-write path updates `lastConnectionState` to `Connecting` and
then `Connected` directly without invoking `connectionStatusCallback`, and
the subsequent poll sees an unchanged state. -/
theorem credentialFlow_statusCallback_zero :
    countConnStatusCb ((onCredentialsReceived true .success
        [104, 111, 109, 101] [112, 119, 49, 50, 51]
        ⟨ConnState.notConfigured, false, false⟩).2 ++
      (monitorConnection ConnState.connected true false
        (onCredentialsReceived true .success
          [104, 111, 109, 101] [112, 119, 49, 50, 51]
          ⟨ConnState.notConfigured, false, false⟩).1).2) = 0 ∧
    countConnStatusCb ((onCredentialsReceived true .success
        [104, 111, 109, 101] [112, 119, 49, 50, 51]
        ⟨ConnState.notConfigured, false, false⟩).2 ++
      (monitorConnection ConnState.connected true false
        (onCredentialsReceived true .success
          [104, 111, 109, 101] [112, 119, 49, 50, 51]
          ⟨ConnState.notConfigured, false, false⟩).1).2) ≠ 2 := by
  constructor
  · decide
  · decide

/-- C1 (amended): the status-change callback is fired only by the poll
(`monitorConnection`), exactly once per tick on which the polled state
differs from the recorded one and never on a tick where it is unchanged;
the credential-write flow with a successful connect records `Connecting`
then `Connected` (emitting a `StatusResponse` push at each change) but
fires the status-change callback zero times. -/
theorem statusCallback_per_transition :
    (∀ current clientConnected timerExpired st,
      countConnStatusCb
        (monitorConnection current clientConnected timerExpired st).2 =
        if current = st.lastConnectionState then 0 else 1) ∧
    (∀ ssid password st,
      countConnStatusCb (handleWiFiConnection true .success ssid password st).2 = 0 ∧
      (handleWiFiConnection true .success ssid password st).1.lastConnectionState =
        ConnState.connected ∧
      (handleWiFiConnection true .success ssid password st).2 =
        [.statusResponse, .connectAttempt ssid password, .statusResponse,
         .wifiConnectedCb]) := by
  constructor
  · intro current c t st
    unfold monitorConnection countConnStatusCb
    by_cases h1 : current = st.lastConnectionState
    · simp only [h1]
      cases t <;> cases c <;> simp [isConnStatusCb]
    · cases c <;> cases t <;> cases current <;> simp [h1, isConnStatusCb]
  · intro ssid password st
    exact ⟨rfl, rfl, rfl⟩

/-- C9: when the persistence collaborator's save fails, the credential-write
flow sends a `STORAGE_ERROR` frame and returns at once: the connection
state is left unchanged and `wifiManager.connect` is never called. -/
theorem handleWiFiConnection_storageFailure (result : WiFiConnectResult)
    (ssid password : List Nat) (st : ESPState) :
    handleWiFiConnection false result ssid password st =
      (st, [.errorFrame STORAGE_ERROR]) ∧
    (handleWiFiConnection false result ssid password st).2.countP
      isConnectAttempt = 0 := by
  constructor
  · rfl
  · rfl

lemma monitorConnection_flags (current : ConnState)
    (clientConnected timerExpired : Bool) (st : ESPState) :
    (monitorConnection current clientConnected timerExpired st).1.pendingClientConnect =
      st.pendingClientConnect ∧
    (monitorConnection current clientConnected timerExpired st).1.pendingClientDisconnect =
      st.pendingClientDisconnect := by
  unfold monitorConnection
  split
  · split
    · exact ⟨rfl, rfl⟩
    · exact ⟨rfl, rfl⟩
  · exact ⟨rfl, rfl⟩

lemma drainConnect_state (clientConnected : Bool) (st : ESPState) :
    (drainConnect clientConnected st).1 =
      { st with pendingClientConnect := false } := by
  unfold drainConnect
  split
  · rfl
  next h =>
    have hf : st.pendingClientConnect = false := by simpa using h
    cases st
    simp only at hf
    simp [hf]

lemma drainDisconnect_state (st : ESPState) :
    (drainDisconnect st).1 = { st with pendingClientDisconnect := false } := by
  unfold drainDisconnect
  split
  · rfl
  next h =>
    have hf : st.pendingClientDisconnect = false := by simpa using h
    cases st
    simp only at hf
    simp [hf]

/-- C7: the transport connect/disconnect notifications only set their
pending flag; one `loop` invocation clears both flags (each is checked and
cleared at most once), and when both are pending the full connect drain —
user callback, scan, network-list transmission, status push — precedes the
disconnect callback, which precedes the poll. -/
theorem deferredBridge_loop_ordering :
    (∀ st, onClientConnected st = { st with pendingClientConnect := true } ∧
      onClientDisconnected st = { st with pendingClientDisconnect := true }) ∧
    (∀ current clientConnected timerExpired st,
      (loop current clientConnected timerExpired st).1.pendingClientConnect = false ∧
      (loop current clientConnected timerExpired st).1.pendingClientDisconnect = false) ∧
    (∀ current clientConnected timerExpired st,
      st.pendingClientConnect = true → st.pendingClientDisconnect = true →
      (loop current clientConnected timerExpired st).2 =
        connectDrain clientConnected ++ [Event.bleClientDisconnectedCb] ++
          (monitorConnection current clientConnected timerExpired
            ⟨st.lastConnectionState, false, false⟩).2) := by
  refine ⟨fun st => ⟨rfl, rfl⟩, fun current c t st => ?_, fun current c t st h1 h2 => ?_⟩
  · unfold loop
    constructor
    · rw [(monitorConnection_flags current c t _).1, drainDisconnect_state,
        drainConnect_state]
    · rw [(monitorConnection_flags current c t _).2, drainDisconnect_state]
  · cases st with
    | mk l pc pd =>
      simp only at h1 h2
      subst h1
      subst h2
      unfold loop drainConnect drainDisconnect
      simp

/-- Witness for C7: with both flags pending, a concrete `loop` tick yields
the connect drain, then the disconnect callback, then the poll events. -/
theorem deferredBridge_loop_ordering_witness :
    ((⟨ConnState.notConfigured, true, true⟩ : ESPState).pendingClientConnect = true) ∧
    ((⟨ConnState.notConfigured, true, true⟩ : ESPState).pendingClientDisconnect = true) ∧
    (loop ConnState.notConfigured true false
        ⟨ConnState.notConfigured, true, true⟩).2 =
      connectDrain true ++ [Event.bleClientDisconnectedCb] ++
        (monitorConnection ConnState.notConfigured true false
          ⟨ConnState.notConfigured, false, false⟩).2 :=
  ⟨rfl, rfl, deferredBridge_loop_ordering.2.2 _ _ _ _ rfl rfl⟩

lemma buildWiFiListStart_head (mb : MessageBuilder) :
    (mb.buildWiFiListStart).1.getD 0 0 = WIFI_LIST_START := rfl

lemma filter_singleton_of_false {α : Type} (p : α → Bool) (a : α)
    (h : p a = false) : List.filter p [a] = [] := by
  simp [List.filter_cons, h]

lemma buildWiFiNetworkEntry_head (mb : MessageBuilder)
    (network : WiFiNetworkInfo) :
    (mb.buildWiFiNetworkEntry network).1.getD 0 0 = WIFI_NETWORK_ENTRY := rfl

lemma buildWiFiListEnd_countByte (mb : MessageBuilder) (count : Nat) :
    (mb.buildWiFiListEnd count).1.getD 4 0 = count % 256 := rfl

lemma sendEntriesLoop_frames_head (conn : Nat → Bool) (mb : MessageBuilder)
    (networks : List WiFiNetworkInfo) (k : Nat) :
    ∀ f ∈ (sendEntriesLoop conn mb networks k).1,
      f.getD 0 0 = WIFI_NETWORK_ENTRY := by
  induction networks generalizing mb k with
  | nil =>
    intro f hf
    simp [sendEntriesLoop] at hf
  | cons network rest ih =>
    intro f hf
    unfold sendEntriesLoop at hf
    split at hf
    · simp at hf
    · simp only [List.mem_append] at hf
      rcases hf with h | h
      · split at h
        · simp only [List.mem_singleton] at h
          subst h
          exact buildWiFiNetworkEntry_head mb network
        · simp at h
      · exact ih _ _ f h

lemma sendEntriesLoop_abort (conn : Nat → Bool) (mb : MessageBuilder)
    (networks : List WiFiNetworkInfo) (k d i : Nat)
    (hfalse : ∀ j, d ≤ j → conn j = false) (hd : d ≤ k + 2 * i)
    (hi : i < networks.length) :
    (sendEntriesLoop conn mb networks k).2.2.2 = true ∧
    (sendEntriesLoop conn mb networks k).1.length ≤ i := by
  induction networks generalizing mb k i with
  | nil => simp at hi
  | cons network rest ih =>
    by_cases hk : conn k = false
    · unfold sendEntriesLoop
      rw [if_pos hk]
      exact ⟨rfl, Nat.zero_le i⟩
    · have hkd : k < d := by
        by_contra hge
        exact hk (hfalse k (by omega))
      have hi1 : 1 ≤ i := by omega
      have hrl : i - 1 < rest.length := by
        simp only [List.length_cons] at hi
        omega
      have hrec := ih ((mb.buildWiFiNetworkEntry network).2) (k + 2) (i - 1)
        (by omega) hrl
      unfold sendEntriesLoop
      rw [if_neg hk]
      refine ⟨hrec.1, ?_⟩
      have hs : (if conn (k + 1) = true
          then [(mb.buildWiFiNetworkEntry network).1] else []).length ≤ 1 := by
        split
        · simp
        · simp
      have h2 := hrec.2
      simp only [List.length_append]
      omega

lemma sendEntriesLoop_connected (conn : Nat → Bool) (mb : MessageBuilder)
    (networks : List WiFiNetworkInfo) (k : Nat) (hconn : ∀ j, conn j = true) :
    (sendEntriesLoop conn mb networks k).2.2.2 = false := by
  induction networks generalizing mb k with
  | nil => rfl
  | cons network rest ih =>
    unfold sendEntriesLoop
    rw [if_neg (by simp [hconn k])]
    exact ih _ _

/-- C8: if the client-connected flag becomes false at or before the check
preceding entry `i`, `sendWiFiNetworkList` sends no `ListEnd` frame at all
and at most `i` `NetworkEntry` frames; when the flag stays true
throughout, the last frame sent is the `ListEnd` frame and it carries the
network count clamped to a maximum of 255. -/
theorem sendWiFiNetworkList_disconnect_clamp :
    (∀ conn mb (networks : List WiFiNetworkInfo) d i,
      (∀ j, d ≤ j → conn j = false) → d ≤ 2 + 2 * i → i < networks.length →
      (∀ f ∈ (sendWiFiNetworkList conn mb networks).1,
        f.getD 0 0 ≠ WIFI_LIST_END) ∧
      ((sendWiFiNetworkList conn mb networks).1.filter
        (fun f => f.getD 0 0 == WIFI_NETWORK_ENTRY)).length ≤ i) ∧
    (∀ conn mb (networks : List WiFiNetworkInfo), (∀ j, conn j = true) →
      ((sendWiFiNetworkList conn mb networks).1.getLast?.getD []).getD 0 0 =
        WIFI_LIST_END ∧
      ((sendWiFiNetworkList conn mb networks).1.getLast?.getD []).getD 4 0 =
        (if networks.length > 255 then 255 else networks.length)) := by
  constructor
  · intro conn mb networks d i hfalse hd hi
    unfold sendWiFiNetworkList
    by_cases h0 : conn 0 = false
    · rw [if_pos h0]
      constructor
      · intro f hf
        simp at hf
      · simp
    · rw [if_neg h0]
      have hab := sendEntriesLoop_abort conn (mb.buildWiFiListStart).2
        networks 2 d i hfalse (by omega) hi
      simp only []
      rw [if_pos hab.1]
      constructor
      · intro f hf
        rcases List.mem_append.mp hf with h | h
        · split at h
          · simp only [List.mem_singleton] at h
            subst h
            rw [buildWiFiListStart_head]
            decide
          · simp at h
        · rw [sendEntriesLoop_frames_head conn _ networks 2 f h]
          decide
      · rw [List.filter_append, List.length_append]
        have hstart : (List.filter (fun f => f.getD 0 0 == WIFI_NETWORK_ENTRY)
            (if conn 1 = true then [(mb.buildWiFiListStart).1] else [])).length
            = 0 := by
          split
          · rw [filter_singleton_of_false _ _ (by
              show (((mb.buildWiFiListStart).1).getD 0 0 == WIFI_NETWORK_ENTRY) = false
              rw [buildWiFiListStart_head]
              decide)]
            rfl
          · rfl
        have hrest := List.length_filter_le
          (fun f => f.getD 0 0 == WIFI_NETWORK_ENTRY)
          (sendEntriesLoop conn (mb.buildWiFiListStart).2 networks 2).1
        have h2 := hab.2
        omega
  · intro conn mb networks hconn
    unfold sendWiFiNetworkList
    rw [if_neg (by simp [hconn 0])]
    simp only []
    rw [if_neg (by simp [sendEntriesLoop_connected conn _ networks 2 hconn])]
    simp only []
    rw [if_pos (hconn 1), if_pos (hconn _)]
    rw [List.getLast?_concat]
    simp only [Option.getD_some]
    constructor
    · rfl
    · rw [buildWiFiListEnd_countByte]
      by_cases hlen : networks.length > 255
      · rw [if_pos hlen]
      · rw [if_neg hlen]
        exact Nat.mod_eq_of_lt (by omega)

/-- Witness for C8: with the flag false from check index 4 on, a two-entry
list yields at most one entry frame and no `ListEnd`; with the flag always
true, a one-entry list ends with a `ListEnd` frame carrying count 1. -/
theorem sendWiFiNetworkList_disconnect_clamp_witness :
    (∀ j, 4 ≤ j → (fun j => decide (j < 4)) j = false) ∧
    (4 : Nat) ≤ 2 + 2 * 1 ∧
    (1 : Nat) < ([WiFiNetworkInfo.mk [97] (-40) 2 6,
      WiFiNetworkInfo.mk [98] (-41) 2 6] : List WiFiNetworkInfo).length ∧
    ((sendWiFiNetworkList (fun j => decide (j < 4)) ⟨0⟩
        [WiFiNetworkInfo.mk [97] (-40) 2 6,
         WiFiNetworkInfo.mk [98] (-41) 2 6]).1.filter
      (fun f => f.getD 0 0 == WIFI_NETWORK_ENTRY)).length ≤ 1 ∧
    (∀ j, (fun _ => true : Nat → Bool) j = true) ∧
    ((sendWiFiNetworkList (fun _ => true) ⟨0⟩
        [WiFiNetworkInfo.mk [97] (-40) 2 6]).1.getLast?.getD []).getD 4 0 =
      (if ([WiFiNetworkInfo.mk [97] (-40) 2 6] : List WiFiNetworkInfo).length > 255
       then 255
       else ([WiFiNetworkInfo.mk [97] (-40) 2 6] : List WiFiNetworkInfo).length) := by
  have hfalse : ∀ j, 4 ≤ j → (fun j => decide (j < 4)) j = false := by
    intro j hj
    simp only [decide_eq_false_iff_not]
    omega
  have htrue : ∀ j, (fun _ => true : Nat → Bool) j = true := fun j => rfl
  exact ⟨hfalse, by omega, by simp,
    (sendWiFiNetworkList_disconnect_clamp.1 _ _ _ 4 1 hfalse (by omega) (by simp)).2,
    htrue,
    (sendWiFiNetworkList_disconnect_clamp.2 _ _ _ htrue).2⟩

end WiFiSet
